import Mathlib

/-!
Verification of the antbox orchestration layer: a shallow embedding of the
permission guard, the node orchestrator (AntboxService), and the action
runner (ActionService), with theorems checking the natural-language
specification against the code.
-/

/-- The tagged success/failure value from shared/either.ts. -/
inductive Either (L R : Type) where
  | left (value : L)
  | right (value : R)
deriving Repr, DecidableEq

def Either.isLeft {L R : Type} : Either L R → Bool
  | .left _ => true
  | .right _ => false

def Either.isRight {L R : Type} : Either L R → Bool
  | .left _ => false
  | .right _ => true

/-- The error taxonomy used by the orchestrator (shared/antbox_error.ts and
domain error classes). `storeError` stands for any other error produced by
the external node store. -/
inductive AntboxError where
  | nodeNotFound (uuid : String)
  | forbidden
  | badRequest (message : String)
  | storeError (message : String)
deriving Repr, DecidableEq

/-- The capability unit from domain/nodes/node.ts: Permission = Read | Write | Export. -/
inductive Permission where
  | Read
  | Write
  | Export
deriving Repr, DecidableEq

/-- The node variant. The code distinguishes variants through mimetype
predicates (isFolder, ...); the embedding records the variant directly. -/
inductive NodeVariant where
  | file
  | folder
  | metanode
  | smartFolder
deriving Repr, DecidableEq

/-- The per-node grant sets (domain/nodes/node.ts Permissions record,
spec section 3 PermissionSet). Only the anonymous, group and authenticated
sets are consulted by the permission guard. -/
structure Permissions where
  owner : List Permission
  group : List Permission
  anonymous : List Permission
  authenticated : List Permission
deriving Repr, DecidableEq

/-- A node record (domain/nodes/node.ts), restricted to the fields the
orchestration layer reads. -/
structure Node where
  uuid : String
  fid : String
  title : String
  parent : String
  owner : String
  group : String
  mimetype : String
  permissions : Permissions
  variant : NodeVariant
deriving Repr, DecidableEq

/-- Modelled from the spec: the Root folder has a fixed, well-known UUID
(Node.ROOT_FOLDER_UUID in domain/nodes/node.ts, which is not among the
provided sources). The concrete string is arbitrary but fixed. -/
def Node.ROOT_FOLDER_UUID : String := "--root--"

/-- Modelled from the spec: the System folder has a fixed, well-known UUID. -/
def Node.SYSTEM_FOLDER_UUID : String := "--system--"

def Node.isFolder (n : Node) : Prop := n.variant = NodeVariant.folder

instance (n : Node) : Decidable n.isFolder := by
  unfold Node.isFolder; infer_instance

def Node.isRootFolder (n : Node) : Prop := n.uuid = Node.ROOT_FOLDER_UUID

instance (n : Node) : Decidable n.isRootFolder := by
  unfold Node.isRootFolder; infer_instance

/-- Modelled from the spec: the Principal supplied by the auth context
(domain/auth/user_principal.ts and user.ts are not among the provided
sources). The spec gives email, groups and an admin flag; the code also
reads a primary group (authCtx.principal.group) in createFolder. -/
structure UserPrincipal where
  email : String
  group : String
  groups : List String
  isAdmin : Bool
deriving Repr, DecidableEq

/-- Modelled from the spec: ANONYMOUS is a reserved sentinel email denoting
an unauthenticated caller (User.ANONYMOUS_USER_EMAIL). The concrete string
is arbitrary but fixed. -/
def User.ANONYMOUS_USER_EMAIL : String := "anonymous@antbox.io"

/-- The permission guard: AntboxService.#assertPermission, translated
clause by clause from the source. -/
def assertPermission (principal : UserPrincipal) (node : Node)
    (permission : Permission) : Either AntboxError Unit :=
  if ¬ node.isFolder then .right ()
  else if principal.isAdmin then .right ()
  else if node.isRootFolder ∧ permission = Permission.Read then .right ()
  else if node.isRootFolder ∧ ¬ principal.isAdmin then .left .forbidden
  else if node.owner = principal.email then .right ()
  else if permission ∈ node.permissions.anonymous then .right ()
  else if node.group ∈ principal.groups ∧ permission ∈ node.permissions.group then .right ()
  else if principal.email ≠ User.ANONYMOUS_USER_EMAIL ∧
      permission ∈ node.permissions.authenticated then .right ()
  else .left .forbidden

/-- The observable decision of a permission check. -/
inductive Decision where
  | granted
  | denied
deriving Repr, DecidableEq

def decisionOf {α : Type} : Either AntboxError α → Decision
  | .left _ => .denied
  | .right _ => .granted

/-- Modelled from the spec: the nine-rule ladder of section 4.1, written
from the words of the spec (first match wins, evaluated in order) for
comparison against the code. -/
def specEvaluate (p : UserPrincipal) (n : Node) (c : Permission) : Decision :=
  if ¬ n.isFolder then .granted
  else if p.isAdmin then .granted
  else if n.isRootFolder ∧ c = Permission.Read then .granted
  else if n.isRootFolder then .denied
  else if p.email = n.owner then .granted
  else if c ∈ n.permissions.anonymous then .granted
  else if n.group ∈ p.groups ∧ c ∈ n.permissions.group then .granted
  else if p.email ≠ User.ANONYMOUS_USER_EMAIL ∧ c ∈ n.permissions.authenticated then .granted
  else .denied

/-- Characterization of a granted decision, shared by several proofs. -/
theorem assertPermission_granted_iff (p : UserPrincipal) (n : Node) (c : Permission) :
    decisionOf (assertPermission p n c) = Decision.granted ↔
      (¬ n.isFolder ∨ p.isAdmin = true ∨
        (n.isRootFolder ∧ c = Permission.Read) ∨
        (n.isFolder ∧ ¬ n.isRootFolder ∧
          (n.owner = p.email ∨ c ∈ n.permissions.anonymous ∨
            (n.group ∈ p.groups ∧ c ∈ n.permissions.group) ∨
            (p.email ≠ User.ANONYMOUS_USER_EMAIL ∧
              c ∈ n.permissions.authenticated)))) := by
  unfold assertPermission
  split_ifs <;> simp_all [decisionOf]

/-- Claim C1: the permission decision function equals the nine-rule ladder
of spec section 4.1 evaluated in order with first match winning. -/
theorem assertPermission_eq_spec_ladder (p : UserPrincipal) (n : Node) (c : Permission) :
    decisionOf (assertPermission p n c) = specEvaluate p n c := by
  unfold assertPermission specEvaluate
  split_ifs <;> simp_all [decisionOf]

/-- A concrete non-admin principal used in witnesses and counterexamples. -/
def aliceP : UserPrincipal :=
  { email := "alice@example.com", group := "eng", groups := ["eng"], isAdmin := false }

/-- All three capabilities, used to make grant sets as permissive as possible. -/
def allCaps : List Permission := [Permission.Read, Permission.Write, Permission.Export]

/-- A Root folder record whose owner field names alice and whose grant sets
are maximal. -/
def rootOwnedByAlice : Node :=
  { uuid := Node.ROOT_FOLDER_UUID, fid := "", title := "root",
    parent := "", owner := "alice@example.com", group := "eng",
    mimetype := "application/vnd.antbox.folder",
    permissions :=
      { owner := allCaps, group := allCaps, anonymous := allCaps,
        authenticated := allCaps },
    variant := NodeVariant.folder }

/-- Claim C2 counterexample: a non-admin principal whose email equals the
owner of the Root folder is still denied Write on it, because the Root
rules fire before the owner rule. -/
theorem owner_not_granted_on_root_counterexample :
    aliceP.isAdmin = false ∧
    rootOwnedByAlice.isFolder ∧
    aliceP.email = rootOwnedByAlice.owner ∧
    decisionOf (assertPermission aliceP rootOwnedByAlice Permission.Write) =
      Decision.denied := by
  refine ⟨rfl, rfl, rfl, by decide⟩

/-- Claim C2 (amended): for every non-admin principal and every folder
other than the Root folder, owning the folder grants every capability,
regardless of the grant sets. -/
theorem owner_granted_on_nonroot_folder (p : UserPrincipal) (f : Node) (cap : Permission)
    (_hAdmin : p.isAdmin = false) (hFolder : f.isFolder) (hRoot : ¬ f.isRootFolder)
    (hOwner : p.email = f.owner) :
    decisionOf (assertPermission p f cap) = Decision.granted := by
  rw [assertPermission_granted_iff]
  exact Or.inr (Or.inr (Or.inr ⟨hFolder, hRoot, Or.inl hOwner.symm⟩))

/-- A concrete non-root folder owned by alice with empty grant sets. -/
def aliceFolder : Node :=
  { uuid := "f1", fid := "", title := "docs", parent := Node.ROOT_FOLDER_UUID,
    owner := "alice@example.com", group := "eng",
    mimetype := "application/vnd.antbox.folder",
    permissions := { owner := [], group := [], anonymous := [], authenticated := [] },
    variant := NodeVariant.folder }

/-- Witness for the amended claim C2 at a concrete input. -/
theorem owner_granted_on_nonroot_folder_witness :
    decisionOf (assertPermission aliceP aliceFolder Permission.Write) =
      Decision.granted :=
  owner_granted_on_nonroot_folder aliceP aliceFolder Permission.Write rfl rfl
    (by decide) rfl

/-- Selector for one of the three explicit grant sets of a PermissionSet. -/
inductive GrantSet where
  | anonymous
  | group
  | authenticated
deriving Repr, DecidableEq

/-- Adding one capability to the selected explicit grant set. -/
def Permissions.addCap : GrantSet → Permission → Permissions → Permissions
  | .anonymous, c, ps => { ps with anonymous := c :: ps.anonymous }
  | .group, c, ps => { ps with group := c :: ps.group }
  | .authenticated, c, ps => { ps with authenticated := c :: ps.authenticated }

/-- The same node with one capability added to one explicit grant set. -/
def Node.addCap (s : GrantSet) (c : Permission) (n : Node) : Node :=
  { n with permissions := n.permissions.addCap s c }

/-- Claim C3: the permission decision is monotonic in the explicit grant
sets — adding a capability to the anonymous, group, or authenticated set
never turns Granted into Denied. -/
theorem assertPermission_monotone (p : UserPrincipal) (f : Node)
    (cap added : Permission) (s : GrantSet)
    (h : decisionOf (assertPermission p f cap) = Decision.granted) :
    decisionOf (assertPermission p (f.addCap s added) cap) = Decision.granted := by
  rw [assertPermission_granted_iff] at h ⊢
  cases s <;>
    simp only [Node.addCap, Permissions.addCap, Node.isFolder, Node.isRootFolder,
      List.mem_cons] at h ⊢ <;>
    tauto

/-- Witness for claim C3 at a concrete input: bob reads through the group
grant, and the grant survives adding Write to the anonymous set. -/
theorem assertPermission_monotone_witness :
    decisionOf
      (assertPermission
        { email := "bob@example.com", group := "eng", groups := ["eng"], isAdmin := false }
        (Node.addCap GrantSet.anonymous Permission.Write
          { aliceFolder with permissions :=
            { owner := [], group := [Permission.Read], anonymous := [],
              authenticated := [] } })
        Permission.Read) = Decision.granted :=
  assertPermission_monotone
    { email := "bob@example.com", group := "eng", groups := ["eng"], isAdmin := false }
    { aliceFolder with permissions :=
      { owner := [], group := [Permission.Read], anonymous := [], authenticated := [] } }
    Permission.Read Permission.Write GrantSet.anonymous (by decide)

/-- A Partial Node record: the caller-supplied metadata of the orchestrator
operations (Partial of Node in the source), restricted to the fields the
orchestration layer reads or overrides. -/
structure Metadata where
  uuid : Option String := none
  title : Option String := none
  parent : Option String := none
  owner : Option String := none
  group : Option String := none
  permissions : Option Permissions := none
  mimetype : Option String := none
deriving Repr, DecidableEq

/-- JavaScript truthiness of an optional string field (undefined and the
empty string are falsy), used for the `if (metadata.parent)` guards. -/
def isTruthy : Option String → Bool
  | none => false
  | some s => s ≠ ""

/-- The `metadata.parent ?? Node.ROOT_FOLDER_UUID` default (nullish
coalescing: only an absent value falls back to the Root folder). -/
def orRootFolder : Option String → String
  | none => Node.ROOT_FOLDER_UUID
  | some s => s

/-- Modelled from the spec: the Aspects folder is a reserved sub-area of
the System folder with a fixed UUID (AspectService.isAspectsFolder is not
among the provided sources). -/
def AspectService.isAspectsFolder (uuid : String) : Bool := uuid == "--aspects--"

/-- Modelled from the spec: the Actions folder is a reserved sub-area of
the System folder with a fixed UUID (ActionService.isActionsFolder is not
among the provided sources). -/
def ActionService.isActionsFolder (uuid : String) : Bool := uuid == "--actions--"

/-- Modelled from the spec: the Extensions folder is a reserved sub-area of
the System folder with a fixed UUID (ExtService.isExtensionsFolder is not
among the provided sources). -/
def ExtService.isExtensionsFolder (uuid : String) : Bool := uuid == "--ext--"

/-- AntboxService.isSystemFolder, translated from the source. -/
def AntboxService.isSystemFolder (uuid : String) : Bool :=
  uuid == Node.SYSTEM_FOLDER_UUID ||
  AspectService.isAspectsFolder uuid ||
  ActionService.isActionsFolder uuid ||
  ExtService.isExtensionsFolder uuid

/-- The source applies the folder predicates to `metadata.parent!`; when
the field is absent the underlying string comparison is false. -/
def optIsActionsFolder : Option String → Bool
  | none => false
  | some u => ActionService.isActionsFolder u

def optIsAspectsFolder : Option String → Bool
  | none => false
  | some u => AspectService.isAspectsFolder u

def optIsExtensionsFolder : Option String → Bool
  | none => false
  | some u => ExtService.isExtensionsFolder u

def optIsSystemFolder : Option String → Bool
  | none => false
  | some u => AntboxService.isSystemFolder u

/-- The domain events the orchestrator publishes through
DomainEvents.notify. -/
inductive DomainEvent where
  | nodeCreated (actorEmail : String) (node : Node)
  | nodeUpdated (actorEmail : String) (uuid : String) (metadata : Metadata)
  | nodeDeleted (actorEmail : String) (uuid : String)
  | nodeContentUpdated (actorEmail : String) (uuid : String)
deriving Repr, DecidableEq

/-- A record of a node-store mutation the orchestrator invoked, with the
arguments it passed. -/
inductive StoreMutation where
  | createFile (metadata : Metadata)
  | createMetanode (metadata : Metadata)
  | createFolder (metadata : Metadata)
  | update (uuid : String) (metadata : Metadata) (merge : Option Bool)
  | updateFile (uuid : String)
  | copy (uuid : String) (parent : String)
  | duplicate (uuid : String)
  | delete (uuid : String)
deriving Repr, DecidableEq

/-- Modelled from the spec: the external Node Store collaborator contract
of section 6 (node_service.ts is not among the provided sources). Each
field gives the outcome the store would return for the corresponding call,
as an arbitrary function of the call arguments; `get` reads the node
snapshot the permission checks use. The three createOrReplace fields stand
for the dedicated action/aspect/extension collaborators that createFile
delegates to. -/
structure NodeService where
  get : String → Either AntboxError Node
  createFileRes : Metadata → Either AntboxError Node
  createMetanodeRes : Metadata → Either AntboxError Node
  createFolderRes : Metadata → Either AntboxError Node
  updateRes : String → Metadata → Option Bool → Either AntboxError Unit
  updateFileRes : String → Either AntboxError Unit
  copyRes : String → String → Either AntboxError Node
  duplicateRes : String → Either AntboxError Node
  deleteRes : String → Either AntboxError Unit
  actionCreateOrReplace : Metadata → Either AntboxError Node
  aspectCreateOrReplace : Metadata → Either AntboxError Node
  extCreateOrReplace : Metadata → Either AntboxError Node

/-- The observable outcome of one orchestrator operation: its returned
result, the domain events it published, and the store mutations it
invoked, in order. -/
structure OpOutcome (α : Type) where
  result : Either AntboxError α
  events : List DomainEvent
  mutations : List StoreMutation
deriving Repr, DecidableEq

/-- AntboxService.#getFolderWithPermission, translated from the source. -/
def AntboxService.getFolderWithPermission (svc : NodeService) (auth : UserPrincipal)
    (uuid : String) (permission : Permission) : Either AntboxError Node :=
  match svc.get uuid with
  | .left e => .left e
  | .right folder =>
    if ¬ folder.isFolder then .left (.badRequest "Is not a folder")
    else
      match assertPermission auth folder permission with
      | .left e => .left e
      | .right _ => .right folder

/-- AntboxService.createFile, translated from the source (the binary file
payload does not influence the orchestration logic and is omitted). -/
def AntboxService.createFile (svc : NodeService) (auth : UserPrincipal)
    (metadata : Metadata) : OpOutcome Node :=
  if optIsActionsFolder metadata.parent then
    { result := svc.actionCreateOrReplace metadata, events := [], mutations := [] }
  else if optIsAspectsFolder metadata.parent then
    { result := svc.aspectCreateOrReplace metadata, events := [], mutations := [] }
  else if optIsExtensionsFolder metadata.parent then
    { result := svc.extCreateOrReplace metadata, events := [], mutations := [] }
  else
    match AntboxService.getFolderWithPermission svc auth (orRootFolder metadata.parent)
        Permission.Write with
    | .left e => { result := .left e, events := [], mutations := [] }
    | .right _ =>
      match svc.createFileRes metadata with
      | .right node =>
        { result := .right node,
          events := [DomainEvent.nodeCreated auth.email node],
          mutations := [StoreMutation.createFile metadata] }
      | .left e =>
        { result := .left e, events := [], mutations := [StoreMutation.createFile metadata] }

/-- AntboxService.createMetanode, translated from the source. -/
def AntboxService.createMetanode (svc : NodeService) (auth : UserPrincipal)
    (metadata : Metadata) : OpOutcome Node :=
  match AntboxService.getFolderWithPermission svc auth (orRootFolder metadata.parent)
      Permission.Write with
  | .left e => { result := .left e, events := [], mutations := [] }
  | .right _ =>
    match svc.createMetanodeRes metadata with
    | .right node =>
      { result := .right node,
        events := [DomainEvent.nodeCreated auth.email node],
        mutations := [StoreMutation.createMetanode metadata] }
    | .left e =>
      { result := .left e, events := [], mutations := [StoreMutation.createMetanode metadata] }

/-- The metadata record createFolder hands to the store: the caller
metadata is spread and then owner, group and permissions are overridden
from the principal and the resolved parent folder. -/
def createFolderMetadata (auth : UserPrincipal) (parent : Node)
    (metadata : Metadata) : Metadata :=
  { metadata with
    owner := some auth.email
    group := some auth.group
    permissions := some parent.permissions }

/-- AntboxService.createFolder, translated from the source. -/
def AntboxService.createFolder (svc : NodeService) (auth : UserPrincipal)
    (metadata : Metadata) : OpOutcome Node :=
  if optIsSystemFolder metadata.parent then
    { result := .left (.badRequest "Cannot create folders in system folder"),
      events := [], mutations := [] }
  else
    match AntboxService.getFolderWithPermission svc auth (orRootFolder metadata.parent)
        Permission.Write with
    | .left e => { result := .left e, events := [], mutations := [] }
    | .right parent =>
      match svc.createFolderRes (createFolderMetadata auth parent metadata) with
      | .right node =>
        { result := .right node,
          events := [DomainEvent.nodeCreated auth.email node],
          mutations := [StoreMutation.createFolder (createFolderMetadata auth parent metadata)] }
      | .left e =>
        { result := .left e, events := [],
          mutations := [StoreMutation.createFolder (createFolderMetadata auth parent metadata)] }

/-- AntboxService.get, translated from the source: a folder requires Read
on itself, any other node requires Read on its parent folder. -/
def AntboxService.obtain (svc : NodeService) (auth : UserPrincipal)
    (uuid : String) : Either AntboxError Node :=
  match svc.get uuid with
  | .left e => .left e
  | .right node =>
    if node.isFolder then
      match assertPermission auth node Permission.Read with
      | .left e => .left e
      | .right _ => .right node
    else
      match AntboxService.getFolderWithPermission svc auth node.parent Permission.Read with
      | .left e => .left e
      | .right _ => .right node

/-- AntboxService.updateFolder, translated from the source. The published
event names the folder owner as actor and the store update is invoked
without a merge argument. -/
def AntboxService.updateFolder (svc : NodeService) (auth : UserPrincipal)
    (folder : Node) (metadata : Metadata) : OpOutcome Unit :=
  match assertPermission auth folder Permission.Write with
  | .left e => { result := .left e, events := [], mutations := [] }
  | .right _ =>
    if isTruthy metadata.parent then
      match AntboxService.getFolderWithPermission svc auth (metadata.parent.getD "")
          Permission.Write with
      | .left _ => { result := .left .forbidden, events := [], mutations := [] }
      | .right _ =>
        match svc.updateRes folder.uuid metadata none with
        | .right _ =>
          { result := .right (),
            events := [DomainEvent.nodeUpdated folder.owner folder.uuid metadata],
            mutations := [StoreMutation.update folder.uuid metadata none] }
        | .left e =>
          { result := .left e, events := [],
            mutations := [StoreMutation.update folder.uuid metadata none] }
    else
      match svc.updateRes folder.uuid metadata none with
      | .right _ =>
        { result := .right (),
          events := [DomainEvent.nodeUpdated folder.owner folder.uuid metadata],
          mutations := [StoreMutation.update folder.uuid metadata none] }
      | .left e =>
        { result := .left e, events := [],
          mutations := [StoreMutation.update folder.uuid metadata none] }

/-- AntboxService.update, translated from the source: folders are handed
to updateFolder; other nodes require Write on the current parent, and on a
move additionally Write on the destination parent, every failure of either
resolution being reported as ForbiddenError. -/
def AntboxService.update (svc : NodeService) (auth : UserPrincipal)
    (uuid : String) (metadata : Metadata) (merge : Option Bool) : OpOutcome Unit :=
  match svc.get uuid with
  | .left e => { result := .left e, events := [], mutations := [] }
  | .right node =>
    if node.isFolder then AntboxService.updateFolder svc auth node metadata
    else
      match AntboxService.getFolderWithPermission svc auth node.parent Permission.Write with
      | .left _ => { result := .left .forbidden, events := [], mutations := [] }
      | .right _ =>
        if isTruthy metadata.parent then
          match AntboxService.getFolderWithPermission svc auth (metadata.parent.getD "")
              Permission.Write with
          | .left _ => { result := .left .forbidden, events := [], mutations := [] }
          | .right _ =>
            match svc.updateRes uuid metadata merge with
            | .right _ =>
              { result := .right (),
                events := [DomainEvent.nodeUpdated auth.email uuid metadata],
                mutations := [StoreMutation.update uuid metadata merge] }
            | .left e =>
              { result := .left e, events := [],
                mutations := [StoreMutation.update uuid metadata merge] }
        else
          match svc.updateRes uuid metadata merge with
          | .right _ =>
            { result := .right (),
              events := [DomainEvent.nodeUpdated auth.email uuid metadata],
              mutations := [StoreMutation.update uuid metadata merge] }
          | .left e =>
            { result := .left e, events := [],
              mutations := [StoreMutation.update uuid metadata merge] }

/-- AntboxService.updateFile, translated from the source. -/
def AntboxService.updateFile (svc : NodeService) (auth : UserPrincipal)
    (uuid : String) : OpOutcome Unit :=
  if AntboxService.isSystemFolder uuid then
    { result := .left (.badRequest "Cannot update system folder"),
      events := [], mutations := [] }
  else
    match svc.updateFileRes uuid with
    | .right _ =>
      { result := .right (),
        events := [DomainEvent.nodeContentUpdated auth.email uuid],
        mutations := [StoreMutation.updateFile uuid] }
    | .left e =>
      { result := .left e, events := [], mutations := [StoreMutation.updateFile uuid] }

/-- AntboxService.copy, translated from the source. -/
def AntboxService.copy (svc : NodeService) (auth : UserPrincipal)
    (uuid parent : String) : OpOutcome Node :=
  match AntboxService.getFolderWithPermission svc auth parent Permission.Write with
  | .left e => { result := .left e, events := [], mutations := [] }
  | .right _ =>
    match AntboxService.obtain svc auth uuid with
    | .left e => { result := .left e, events := [], mutations := [] }
    | .right _ =>
      match svc.copyRes uuid parent with
      | .right node =>
        { result := .right node,
          events := [DomainEvent.nodeCreated auth.email node],
          mutations := [StoreMutation.copy uuid parent] }
      | .left e =>
        { result := .left e, events := [], mutations := [StoreMutation.copy uuid parent] }

/-- AntboxService.duplicate, translated from the source: readability of the
source node, Write on its existing parent, then the store duplicate; the
store result is returned directly and no event is published. -/
def AntboxService.duplicate (svc : NodeService) (auth : UserPrincipal)
    (uuid : String) : OpOutcome Node :=
  match AntboxService.obtain svc auth uuid with
  | .left e => { result := .left e, events := [], mutations := [] }
  | .right node =>
    match AntboxService.getFolderWithPermission svc auth node.parent Permission.Write with
    | .left e => { result := .left e, events := [], mutations := [] }
    | .right _ =>
      { result := svc.duplicateRes uuid, events := [],
        mutations := [StoreMutation.duplicate uuid] }

/-- AntboxService.delete, translated from the source. -/
def AntboxService.delete (svc : NodeService) (auth : UserPrincipal)
    (uuid : String) : OpOutcome Unit :=
  match svc.get uuid with
  | .left e => { result := .left e, events := [], mutations := [] }
  | .right node =>
    if node.isFolder ∧ (assertPermission auth node Permission.Write).isLeft then
      { result := .left .forbidden, events := [], mutations := [] }
    else
      match AntboxService.getFolderWithPermission svc auth node.parent Permission.Write with
      | .left e => { result := .left e, events := [], mutations := [] }
      | .right _ =>
        match svc.deleteRes uuid with
        | .right _ =>
          { result := .right (),
            events := [DomainEvent.nodeDeleted auth.email uuid],
            mutations := [StoreMutation.delete uuid] }
        | .left e =>
          { result := .left e, events := [], mutations := [StoreMutation.delete uuid] }

/-- The registered action record (domain/actions/action.ts), with the
outcome its run procedure would produce: `some message` when the run
yields an Error (returned or thrown, both of which ActionService.run
turns into a raise), `none` when it completes cleanly. -/
structure Antbox.Action where
  uuid : String
  title : String
  builtIn : Bool
  multiple : Bool
  aspectConstraints : List String
  mimetypeConstraints : List String
  params : List String
  runRes : Option String
deriving Repr, DecidableEq

/-- ActionService.run, translated from the source. The repository lookup
yields the registered action or nothing; `Except.error` stands for the
promise rejecting, that is the method throwing. The method returns void on
success, so a tagged failure value cannot occur in its result at all. -/
def ActionService.run (repo : String → Option Antbox.Action) (uuid : String) :
    Except String Unit :=
  match repo uuid with
  | none => .error ("Action " ++ uuid ++ " not found")
  | some action =>
    match action.runRes with
    | some err => .error err
    | none => .ok ()

/-- AntboxService.runAction, translated from the source: it forwards to
ActionService.run (the uuids and params arguments do not influence the
lookup outcome and are omitted). -/
def AntboxService.runAction (repo : String → Option Antbox.Action) (uuid : String) :
    Except String Unit :=
  ActionService.run repo uuid

/-- Helper for claim C4: createFile publishes nothing when its result is a
failure. -/

theorem createFile_fail_no_event (svc : NodeService) (auth : UserPrincipal)
    (md : Metadata) :
    (AntboxService.createFile svc auth md).result.isLeft = true →
    (AntboxService.createFile svc auth md).events = [] := by
  unfold AntboxService.createFile
  split_ifs <;> try (intro _; rfl)
  split
  · intro _; rfl
  · split
    · intro h; simp [Either.isLeft] at h
    · intro _; rfl

theorem createMetanode_fail_no_event (svc : NodeService) (auth : UserPrincipal)
    (md : Metadata) :
    (AntboxService.createMetanode svc auth md).result.isLeft = true →
    (AntboxService.createMetanode svc auth md).events = [] := by
  unfold AntboxService.createMetanode
  split
  · intro _; rfl
  · split
    · intro h; simp [Either.isLeft] at h
    · intro _; rfl

theorem createFolder_fail_no_event (svc : NodeService) (auth : UserPrincipal)
    (md : Metadata) :
    (AntboxService.createFolder svc auth md).result.isLeft = true →
    (AntboxService.createFolder svc auth md).events = [] := by
  unfold AntboxService.createFolder
  split
  · intro _; rfl
  · split
    · intro _; rfl
    · split
      · intro h; simp [Either.isLeft] at h
      · intro _; rfl

theorem updateFolder_fail_no_event (svc : NodeService) (auth : UserPrincipal)
    (folder : Node) (md : Metadata) :
    (AntboxService.updateFolder svc auth folder md).result.isLeft = true →
    (AntboxService.updateFolder svc auth folder md).events = [] := by
  unfold AntboxService.updateFolder
  split
  · intro _; rfl
  · split
    · split
      · intro _; rfl
      · split
        · intro h; simp [Either.isLeft] at h
        · intro _; rfl
    · split
      · intro h; simp [Either.isLeft] at h
      · intro _; rfl

theorem update_fail_no_event (svc : NodeService) (auth : UserPrincipal)
    (uuid : String) (md : Metadata) (merge : Option Bool) :
    (AntboxService.update svc auth uuid md merge).result.isLeft = true →
    (AntboxService.update svc auth uuid md merge).events = [] := by
  unfold AntboxService.update
  split
  · intro _; rfl
  · split
    · exact updateFolder_fail_no_event svc auth _ md
    · split
      · intro _; rfl
      · split
        · split
          · intro _; rfl
          · split
            · intro h; simp [Either.isLeft] at h
            · intro _; rfl
        · split
          · intro h; simp [Either.isLeft] at h
          · intro _; rfl

theorem updateFile_fail_no_event (svc : NodeService) (auth : UserPrincipal)
    (uuid : String) :
    (AntboxService.updateFile svc auth uuid).result.isLeft = true →
    (AntboxService.updateFile svc auth uuid).events = [] := by
  unfold AntboxService.updateFile
  split
  · intro _; rfl
  · split
    · intro h; simp [Either.isLeft] at h
    · intro _; rfl

theorem copy_fail_no_event (svc : NodeService) (auth : UserPrincipal)
    (uuid parent : String) :
    (AntboxService.copy svc auth uuid parent).result.isLeft = true →
    (AntboxService.copy svc auth uuid parent).events = [] := by
  unfold AntboxService.copy
  split
  · intro _; rfl
  · split
    · intro _; rfl
    · split
      · intro h; simp [Either.isLeft] at h
      · intro _; rfl

theorem delete_fail_no_event (svc : NodeService) (auth : UserPrincipal)
    (uuid : String) :
    (AntboxService.delete svc auth uuid).result.isLeft = true →
    (AntboxService.delete svc auth uuid).events = [] := by
  unfold AntboxService.delete
  split
  · intro _; rfl
  · split
    · intro _; rfl
    · split
      · intro _; rfl
      · split
        · intro h; simp [Either.isLeft] at h
        · intro _; rfl

/-- Claim C4: for every orchestrator mutation operation, a domain event is
published only when the delegated node-store operation has returned
success; on any failed result (store failure, or a permission or lookup
failure before the store call) no event is published. -/
theorem mutation_event_only_on_store_success (svc : NodeService) (auth : UserPrincipal) :
    (∀ md, (AntboxService.createFile svc auth md).result.isLeft = true →
      (AntboxService.createFile svc auth md).events = []) ∧
    (∀ md, (AntboxService.createMetanode svc auth md).result.isLeft = true →
      (AntboxService.createMetanode svc auth md).events = []) ∧
    (∀ md, (AntboxService.createFolder svc auth md).result.isLeft = true →
      (AntboxService.createFolder svc auth md).events = []) ∧
    (∀ uuid md merge, (AntboxService.update svc auth uuid md merge).result.isLeft = true →
      (AntboxService.update svc auth uuid md merge).events = []) ∧
    (∀ folder md, (AntboxService.updateFolder svc auth folder md).result.isLeft = true →
      (AntboxService.updateFolder svc auth folder md).events = []) ∧
    (∀ uuid, (AntboxService.updateFile svc auth uuid).result.isLeft = true →
      (AntboxService.updateFile svc auth uuid).events = []) ∧
    (∀ uuid parent, (AntboxService.copy svc auth uuid parent).result.isLeft = true →
      (AntboxService.copy svc auth uuid parent).events = []) ∧
    (∀ uuid, (AntboxService.delete svc auth uuid).result.isLeft = true →
      (AntboxService.delete svc auth uuid).events = []) :=
  ⟨createFile_fail_no_event svc auth, createMetanode_fail_no_event svc auth,
    createFolder_fail_no_event svc auth, update_fail_no_event svc auth,
    updateFolder_fail_no_event svc auth, updateFile_fail_no_event svc auth,
    copy_fail_no_event svc auth, delete_fail_no_event svc auth⟩

/-- An admin principal used in witnesses and counterexamples. -/
def adminP : UserPrincipal :=
  { email := "admin@antbox.io", group := "admins", groups := ["admins"], isAdmin := true }

def emptyPerms : Permissions :=
  { owner := [], group := [], anonymous := [], authenticated := [] }

/-- A folder owned by alice, child of the Root folder. -/
def folderP : Node :=
  { uuid := "p1", fid := "", title := "projects", parent := Node.ROOT_FOLDER_UUID,
    owner := "alice@example.com", group := "eng",
    mimetype := "application/vnd.antbox.folder",
    permissions := { owner := [], group := [Permission.Read], anonymous := [], authenticated := [Permission.Read] },
    variant := NodeVariant.folder }

/-- A folder owned by bob on which alice holds no grant at all. -/
def folderG : Node :=
  { uuid := "g1", fid := "", title := "private", parent := Node.ROOT_FOLDER_UUID,
    owner := "bob@example.com", group := "ops",
    mimetype := "application/vnd.antbox.folder",
    permissions := emptyPerms, variant := NodeVariant.folder }

/-- A file owned by alice living under folderP. -/
def fileN : Node :=
  { uuid := "n1", fid := "", title := "report", parent := "p1",
    owner := "alice@example.com", group := "eng", mimetype := "application/pdf",
    permissions := emptyPerms, variant := NodeVariant.file }

/-- A file whose parent uuid resolves to nothing in the store. -/
def fileOrphan : Node :=
  { uuid := "n3", fid := "", title := "stray", parent := "missing",
    owner := "alice@example.com", group := "eng", mimetype := "application/pdf",
    permissions := emptyPerms, variant := NodeVariant.file }

/-- The node the store would return from a successful duplicate of fileN. -/
def dupNode : Node :=
  { fileN with uuid := "n2", title := "report 2" }

/-- The node the store would return from a successful copy of fileN. -/
def copyNode : Node :=
  { fileN with uuid := "n4" }

/-- The System folder record. -/
def systemFolderNode : Node :=
  { uuid := Node.SYSTEM_FOLDER_UUID, fid := "", title := "system",
    parent := Node.ROOT_FOLDER_UUID, owner := "admin@antbox.io", group := "admins",
    mimetype := "application/vnd.antbox.folder",
    permissions := emptyPerms, variant := NodeVariant.folder }

/-- The metanode the store would return from a successful createMetanode. -/
def metaNode : Node :=
  { uuid := "m1", fid := "", title := "meta", parent := Node.SYSTEM_FOLDER_UUID,
    owner := "admin@antbox.io", group := "admins", mimetype := "application/vnd.antbox.metanode",
    permissions := emptyPerms, variant := NodeVariant.metanode }

/-- The folder the store would return from a successful createFolder. -/
def newFolderNode : Node :=
  { uuid := "f9", fid := "", title := "fresh", parent := "p1",
    owner := "alice@example.com", group := "eng",
    mimetype := "application/vnd.antbox.folder",
    permissions := folderP.permissions, variant := NodeVariant.folder }

/-- The snapshot read function shared by the concrete stores. -/
def demoGet : String → Either AntboxError Node := fun u =>
  if u = "n1" then .right fileN
  else if u = "n3" then .right fileOrphan
  else if u = "p1" then .right folderP
  else if u = "g1" then .right folderG
  else if u = Node.SYSTEM_FOLDER_UUID then .right systemFolderNode
  else .left (.nodeNotFound u)

/-- A concrete store on which every mutation succeeds. -/
def demoService : NodeService where
  get := demoGet
  createFileRes := fun _ => .right fileN
  createMetanodeRes := fun _ => .right metaNode
  createFolderRes := fun _ => .right newFolderNode
  updateRes := fun _ _ _ => .right ()
  updateFileRes := fun _ => .right ()
  copyRes := fun _ _ => .right copyNode
  duplicateRes := fun _ => .right dupNode
  deleteRes := fun _ => .right ()
  actionCreateOrReplace := fun _ => .right fileN
  aspectCreateOrReplace := fun _ => .right fileN
  extCreateOrReplace := fun _ => .right fileN

/-- A concrete store whose snapshot reads succeed but whose mutations all
fail. -/
def storeDownService : NodeService where
  get := demoGet
  createFileRes := fun _ => .left (.storeError "store down")
  createMetanodeRes := fun _ => .left (.storeError "store down")
  createFolderRes := fun _ => .left (.storeError "store down")
  updateRes := fun _ _ _ => .left (.storeError "store down")
  updateFileRes := fun _ => .left (.storeError "store down")
  copyRes := fun _ _ => .left (.storeError "store down")
  duplicateRes := fun _ => .left (.storeError "store down")
  deleteRes := fun _ => .left (.storeError "store down")
  actionCreateOrReplace := fun _ => .left (.storeError "store down")
  aspectCreateOrReplace := fun _ => .left (.storeError "store down")
  extCreateOrReplace := fun _ => .left (.storeError "store down")

/-- Witness for claim C4: with the store mutations failing, a permitted
update and a permitted delete publish nothing. -/
theorem mutation_event_only_on_store_success_witness :
    (AntboxService.update storeDownService aliceP "n1" { title := some "x" } none).events = [] ∧
    (AntboxService.delete storeDownService aliceP "n1").events = [] :=
  ⟨(mutation_event_only_on_store_success storeDownService aliceP).2.2.2.1 "n1"
      { title := some "x" } none (by decide),
    (mutation_event_only_on_store_success storeDownService aliceP).2.2.2.2.2.2.2 "n1"
      (by decide)⟩

/-- Claim C5: a fully successful duplicate publishes no domain event, while
the sibling mutation copy of the same source node publishes NodeCreated. -/
theorem duplicate_success_publishes_no_event :
    (AntboxService.duplicate demoService aliceP "n1").result = .right dupNode ∧
    (AntboxService.duplicate demoService aliceP "n1").events = [] ∧
    (AntboxService.copy demoService aliceP "n1" "p1").result = .right copyNode ∧
    (AntboxService.copy demoService aliceP "n1" "p1").events =
      [DomainEvent.nodeCreated "alice@example.com" copyNode] := by
  refine ⟨rfl, rfl, rfl, rfl⟩

/-- Claim C6: an update that moves a non-folder node to a destination the
principal cannot write returns Forbidden, publishes nothing and invokes no
store mutation at all. -/
theorem update_move_forbidden_destination_atomic (svc : NodeService)
    (auth : UserPrincipal) (uuid : String) (md : Metadata) (merge : Option Bool)
    (node parent : Node) (e : AntboxError)
    (hget : svc.get uuid = .right node)
    (hfile : ¬ node.isFolder)
    (hcur : AntboxService.getFolderWithPermission svc auth node.parent Permission.Write =
      .right parent)
    (hmove : isTruthy md.parent = true)
    (hdest : AntboxService.getFolderWithPermission svc auth (md.parent.getD "")
      Permission.Write = .left e) :
    AntboxService.update svc auth uuid md merge =
      { result := .left .forbidden, events := [], mutations := [] } := by
  unfold AntboxService.update
  simp only [hget]
  rw [if_neg hfile]
  simp only [hcur]
  rw [if_pos hmove]
  simp only [hdest]

/-- Witness for claim C6 at a concrete input: alice moves her file toward
the folder of bob and is rejected with nothing invoked. -/
theorem update_move_forbidden_destination_atomic_witness :
    AntboxService.update demoService aliceP "n1" { parent := some "g1" } none =
      { result := .left .forbidden, events := [], mutations := [] } :=
  update_move_forbidden_destination_atomic demoService aliceP "n1"
    { parent := some "g1" } none fileN folderP .forbidden rfl (by decide) rfl rfl rfl

/-- Metadata asking for a metanode directly under the System folder. -/
def mdUnderSystem : Metadata :=
  { title := some "meta", parent := some Node.SYSTEM_FOLDER_UUID }

/-- Claim C7 counterexample: createMetanode with the System folder as
parent is not rejected with BadRequest; the store create is invoked and
the node is created. -/
theorem createMetanode_under_system_not_rejected :
    optIsSystemFolder mdUnderSystem.parent = true ∧
    (AntboxService.createMetanode demoService adminP mdUnderSystem).result = .right metaNode ∧
    (AntboxService.createMetanode demoService adminP mdUnderSystem).mutations =
      [StoreMutation.createMetanode mdUnderSystem] := by
  refine ⟨rfl, rfl, rfl⟩

/-- Claim C7 (amended): createFolder rejects a System-area parent with
BadRequest, creating nothing and publishing nothing. -/
theorem createFolder_rejects_system_parent (svc : NodeService) (auth : UserPrincipal)
    (md : Metadata) (h : optIsSystemFolder md.parent = true) :
    AntboxService.createFolder svc auth md =
      { result := .left (.badRequest "Cannot create folders in system folder"),
        events := [], mutations := [] } := by
  unfold AntboxService.createFolder
  rw [if_pos h]

/-- Witness for the amended claim C7 at a concrete input: the Aspects
folder is one of the reserved sub-areas. -/
theorem createFolder_rejects_system_parent_witness :
    AntboxService.createFolder demoService aliceP
      { title := some "x", parent := some "--aspects--" } =
      { result := .left (.badRequest "Cannot create folders in system folder"),
        events := [], mutations := [] } :=
  createFolder_rejects_system_parent demoService aliceP
    { title := some "x", parent := some "--aspects--" } rfl

/-- The builtin move_to_folder action record from the source. -/
def moveToFolderAction : Antbox.Action :=
  { uuid := "move_to_folder", title := "Mover para pasta", builtIn := true,
    multiple := true, aspectConstraints := [], mimetypeConstraints := [],
    params := ["destination"], runRes := none }

/-- A concrete action repository holding only the builtin action. -/
def demoActionRepo : String → Option Antbox.Action := fun u =>
  if u = "move_to_folder" then some moveToFolderAction else none

/-- Claim C8 counterexample: runAction on an absent action uuid raises an
Error (the promise rejects) instead of returning a tagged failure value. -/
theorem runAction_unknown_action_raises_counterexample :
    AntboxService.runAction demoActionRepo "abc" =
      Except.error ("Action " ++ "abc" ++ " not found") := rfl

/-- Claim C8 (amended): for every repository and every absent action uuid,
runAction raises the not-found condition as a thrown Error rather than
returning a tagged failure. -/
theorem runAction_unknown_action_raises (repo : String → Option Antbox.Action)
    (uuid : String) (h : repo uuid = none) :
    AntboxService.runAction repo uuid =
      Except.error ("Action " ++ uuid ++ " not found") := by
  unfold AntboxService.runAction ActionService.run
  rw [h]

/-- Witness for the amended claim C8 at a concrete input. -/
theorem runAction_unknown_action_raises_witness :
    AntboxService.runAction demoActionRepo "ghost" =
      Except.error ("Action " ++ "ghost" ++ " not found") :=
  runAction_unknown_action_raises demoActionRepo "ghost" rfl

/-- Claim C9: every successful createFolder hands the store a metadata
record whose owner is the principal email, whose group is the principal
primary group and whose permissions are the resolved parent permissions,
overriding whatever the caller supplied. -/
theorem createFolder_overrides_owner_group_permissions (svc : NodeService)
    (auth : UserPrincipal) (md : Metadata) (parent n : Node)
    (hparent : AntboxService.getFolderWithPermission svc auth (orRootFolder md.parent)
      Permission.Write = .right parent)
    (hsuccess : (AntboxService.createFolder svc auth md).result = .right n) :
    (AntboxService.createFolder svc auth md).mutations =
      [StoreMutation.createFolder (createFolderMetadata auth parent md)] ∧
    (createFolderMetadata auth parent md).owner = some auth.email ∧
    (createFolderMetadata auth parent md).group = some auth.group ∧
    (createFolderMetadata auth parent md).permissions = some parent.permissions := by
  refine ⟨?_, rfl, rfl, rfl⟩
  by_cases hsys : optIsSystemFolder md.parent = true
  · unfold AntboxService.createFolder at hsuccess
    rw [if_pos hsys] at hsuccess
    exact absurd hsuccess (by simp)
  · unfold AntboxService.createFolder
    rw [if_neg hsys]
    simp only [hparent]
    rcases hc : svc.createFolderRes (createFolderMetadata auth parent md) with e | node <;>
      simp [hc]

/-- Caller metadata trying to smuggle in a foreign owner, group and
permission set. -/
def mdSneaky : Metadata :=
  { title := some "team", parent := some "p1", owner := some "evil@example.com",
    group := some "zzz",
    permissions := some { owner := allCaps, group := allCaps, anonymous := allCaps, authenticated := allCaps } }

/-- Witness for claim C9 at a concrete input. -/
theorem createFolder_overrides_owner_group_permissions_witness :
    (AntboxService.createFolder demoService aliceP mdSneaky).mutations =
      [StoreMutation.createFolder (createFolderMetadata aliceP folderP mdSneaky)] ∧
    (createFolderMetadata aliceP folderP mdSneaky).owner = some aliceP.email ∧
    (createFolderMetadata aliceP folderP mdSneaky).group = some aliceP.group ∧
    (createFolderMetadata aliceP folderP mdSneaky).permissions = some folderP.permissions :=
  createFolder_overrides_owner_group_permissions demoService aliceP mdSneaky folderP
    newFolderNode rfl rfl

/-- Claim C10: for a non-folder node, any failure resolving or authorizing
the current parent folder is reported as Forbidden, and so is any failure
on the destination parent of a move. -/
theorem update_parent_failures_masked_as_forbidden (svc : NodeService)
    (auth : UserPrincipal) (uuid : String) (md : Metadata) (merge : Option Bool)
    (node : Node) (hget : svc.get uuid = .right node) (hfile : ¬ node.isFolder) :
    (∀ e, AntboxService.getFolderWithPermission svc auth node.parent Permission.Write =
        .left e →
      (AntboxService.update svc auth uuid md merge).result = .left .forbidden) ∧
    (∀ parent e, AntboxService.getFolderWithPermission svc auth node.parent
        Permission.Write = .right parent →
      isTruthy md.parent = true →
      AntboxService.getFolderWithPermission svc auth (md.parent.getD "")
        Permission.Write = .left e →
      (AntboxService.update svc auth uuid md merge).result = .left .forbidden) := by
  constructor
  · intro e he
    unfold AntboxService.update
    simp only [hget]
    rw [if_neg hfile]
    simp only [he]
  · intro parent e hp hm he
    unfold AntboxService.update
    simp only [hget]
    rw [if_neg hfile]
    simp only [hp]
    rw [if_pos hm]
    simp only [he]

/-- Witness for claim C10 at a concrete input: the parent of the stray file
does not exist, the store reports NotFound, and the caller sees Forbidden. -/
theorem update_parent_failures_masked_as_forbidden_witness :
    AntboxService.getFolderWithPermission demoService aliceP "missing" Permission.Write =
      .left (.nodeNotFound "missing") ∧
    (AntboxService.update demoService aliceP "n3" { title := some "x" } none).result =
      .left .forbidden :=
  ⟨rfl,
    (update_parent_failures_masked_as_forbidden demoService aliceP "n3"
        { title := some "x" } none fileOrphan rfl (by decide)).1
      (.nodeNotFound "missing") rfl⟩
